import Mathlib

/-!
Verification of the Blender add-on `Static_Sequential_Image_Export.py`
(operator `STATICSEQUENCE_OT_export.execute`).

The operator is shallowly embedded: Blender objects become `Obj`, the
ambient Blender data (`bpy.data.collections`, `bpy.data.objects`,
`bpy.context.scene.objects`, the filesystem queried by `os.path.exists`)
becomes `BlendData`, the mutable scene state (`render.engine`,
`render.film_transparent`, `scene.camera`, per-object `hide_render`,
`render.filepath`) becomes `SceneState`, and the operator's `execute`
method becomes the pure function `execute` returning a `RunOutput` that
records the result status, the final state, the render invocations
(`write_still=True` writes, one `RenderEvent` per render with a snapshot of
the `hide_render` flags at the moment the render is invoked) and the
`self.report` calls.
-/

/-- A Blender object: identity (`id` distinguishes distinct objects with
equal names), `name` (`obj.name`) and `otype` (`obj.type`, e.g. `"MESH"`,
`"CAMERA"`). -/
structure Obj where
  id : Nat
  name : String
  otype : String
deriving DecidableEq, Repr

/-- The ambient Blender data and filesystem:
`collections` models `bpy.data.collections` (name, member objects),
`objects` models `bpy.data.objects`,
`sceneObjects` models `bpy.context.scene.objects`,
`existingPaths` models the set of paths for which `os.path.exists` is true. -/
structure BlendData where
  collections : List (String × List Obj)
  objects : List Obj
  sceneObjects : List Obj
  existingPaths : List String
deriving DecidableEq, Repr

/-- The operator's configuration (`StaticSequenceExporterProperties`):
`renderCollection`, `lightingCollection`, `outputPath`, `useCycles`,
`transparentFilm`, and `cameraName` (`props.camera_object.name if
props.camera_object else None`). -/
structure Config where
  renderCollection : String
  lightingCollection : String
  outputPath : String
  useCycles : Bool
  transparentFilm : Bool
  cameraName : Option String
deriving DecidableEq, Repr

/-- The mutable scene state touched by the operator:
`engine` (`scene.render.engine`), `filmTransparent`
(`scene.render.film_transparent`), `camera` (`scene.camera`),
`hideRender` (each object's `hide_render` flag), and `renderFilepath`
(`scene.render.filepath`). -/
structure SceneState where
  engine : String
  filmTransparent : Bool
  camera : Option Obj
  hideRender : Obj → Bool
  renderFilepath : String

/-- One invocation of `bpy.ops.render.render(write_still=True)`: the object
being exported, the filepath written, and a snapshot of every object's
`hide_render` flag at the moment the render is invoked. -/
structure RenderEvent where
  target : Obj
  filepath : String
  flagsAtRender : Obj → Bool

/-- A `self.report` call. The message texts in the source are
`f"Collection '{collection_name}' not found."`,
`f"Output path '{output_path}' does not exist."`,
`f"Rendered {obj.name} to {filepath}"` and `"Rendering complete."`;
they are modelled structurally, keeping the interpolated data. -/
inductive Report where
  | errorCollectionNotFound (name : String)
  | errorOutputPathNotExist (path : String)
  | infoRendered (objName : String) (filepath : String)
  | infoComplete
deriving DecidableEq, Repr

/-- The operator's return value: `{'CANCELLED'}` or `{'FINISHED'}`. -/
inductive ExecResult where
  | cancelled
  | finished
deriving DecidableEq, Repr

/-- Everything observable about one run of the operator. -/
structure RunOutput where
  result : ExecResult
  state : SceneState
  events : List RenderEvent
  reports : List Report

/-- `s.endswith(suffix)` in Python: `suffix` is a suffix of `s`. -/
def strEndsWith (s suffix : String) : Bool :=
  suffix.data.isSuffixOf s.data

/-- Lines 72-74: `if not output_path.endswith(('/', '\\')): output_path += '/'`. -/
def normalizePath (p : String) : String :=
  if strEndsWith p "/" || strEndsWith p "\\" then p else p ++ "/"

/-- `bpy.data.collections.get(name)`: the member list of the collection
with that name, if any. -/
def collectionsGet (d : BlendData) (name : String) : Option (List Obj) :=
  (d.collections.find? (fun c => c.1 == name)).map Prod.snd

/-- `bpy.data.objects[name]` lookup (as an `Option`; the source would raise
`KeyError` on a miss, a path no claim exercises). -/
def objectsGet (d : BlendData) (name : String) : Option Obj :=
  d.objects.find? (fun o => o.name == name)

/-- `os.path.exists(p)`. -/
def pathExists (d : BlendData) (p : String) : Bool :=
  d.existingPaths.contains p

/-- Line 106: `filepath = f'{output_path}{obj.name}.png'` (with
`output_path` already normalized). -/
def mkFilepath (outPath objName : String) : String :=
  outPath ++ objName ++ ".png"

/-- The file path the run resolves for an object, from the raw configured
directory: normalization then concatenation. -/
def filepathFor (dir objName : String) : String :=
  mkFilepath (normalizePath dir) objName

/-- Lines 96-97: `for other_obj in bpy.context.scene.objects:
other_obj.hide_render = other_obj not in lighting_objs and other_obj != obj`.
Objects outside the scene keep their previous flag. -/
def hideOthers (sceneObjs lightingObjs : List Obj) (obj : Obj)
    (flags : Obj → Bool) : Obj → Bool :=
  fun o => if o ∈ sceneObjs then decide (o ∉ lightingObjs ∧ o ≠ obj) else flags o

/-- Line 100: `obj.hide_render = False`. -/
def setVisible (obj : Obj) (flags : Obj → Bool) : Obj → Bool :=
  fun o => if o = obj then false else flags o

/-- Lines 115-117: `for obj in bpy.context.scene.objects:
obj.hide_render = False`. -/
def restoreAll (sceneObjs : List Obj) (flags : Obj → Bool) : Obj → Bool :=
  fun o => if o ∈ sceneObjs then false else flags o

/-- The loop accumulator: current scene state, render invocations so far,
reports so far. -/
structure LoopAcc where
  state : SceneState
  events : List RenderEvent
  reports : List Report

/-- One iteration of the main loop (lines 93-113) for one object of the
render collection: objects whose `type` is not `'MESH'` are skipped;
for a mesh, hide everything outside the lighting set and the current
object, set the render filepath, render (recorded as a `RenderEvent`),
and report. -/
def loopStep (d : BlendData) (lightingObjs : List Obj) (outPath : String)
    (acc : LoopAcc) (obj : Obj) : LoopAcc :=
  if obj.otype = "MESH" then
    let flags := setVisible obj (hideOthers d.sceneObjects lightingObjs obj acc.state.hideRender)
    let fp := mkFilepath outPath obj.name
    { state := { acc.state with hideRender := flags, renderFilepath := fp },
      events := acc.events ++ [{ target := obj, filepath := fp, flagsAtRender := flags }],
      reports := acc.reports ++ [Report.infoRendered obj.name fp] }
  else
    acc

/-- Line 90: the set of lighting objects, empty when the lighting
collection does not resolve. -/
def lightingObjsOf (d : BlendData) (p : Config) : List Obj :=
  (collectionsGet d p.lightingCollection).getD []

/-- Lines 62-70, the side effects the source applies before any
validation: set the engine (line 63), the film transparency (line 66) and,
when a camera is configured, the active camera (lines 69-70). -/
def preState (d : BlendData) (p : Config) (i : SceneState) : SceneState :=
  let s1 : SceneState := { i with engine := if p.useCycles then "CYCLES" else "BLENDER_EEVEE" }
  let s2 : SceneState := { s1 with filmTransparent := p.transparentFilm }
  match p.cameraName with
  | some cn => { s2 with camera := objectsGet d cn }
  | none => s2

/-- The main loop of lines 93-113 over the render collection's objects,
starting from the post-validation state. -/
def mainLoop (d : BlendData) (p : Config) (renderObjs : List Obj)
    (s : SceneState) : LoopAcc :=
  renderObjs.foldl (loopStep d (lightingObjsOf d p) (normalizePath p.outputPath))
    { state := s, events := [], reports := [] }

/-- `STATICSEQUENCE_OT_export.execute`, translated statement by statement:
engine, transparency and camera side effects (lines 62-70, `preState`),
normalize the output path (lines 73-74), look up the collections
(lines 77-78), cancel if the render collection is missing (lines 80-82),
cancel if the output path does not exist (lines 85-87), run the main loop
(lines 90-113, `mainLoop`), restore visibility (lines 115-117), report
completion and finish (lines 119-121). -/
def execute (d : BlendData) (p : Config) (i : SceneState) : RunOutput :=
  let s3 := preState d p i
  let outputPath := normalizePath p.outputPath
  match collectionsGet d p.renderCollection with
  | none =>
      { result := .cancelled, state := s3, events := [],
        reports := [Report.errorCollectionNotFound p.renderCollection] }
  | some renderObjs =>
      if pathExists d outputPath then
        let acc := mainLoop d p renderObjs s3
        { result := .finished,
          state := { acc.state with
            hideRender := restoreAll d.sceneObjects acc.state.hideRender },
          events := acc.events,
          reports := acc.reports ++ [Report.infoComplete] }
      else
        { result := .cancelled, state := s3, events := [],
          reports := [Report.errorOutputPathNotExist outputPath] }

/-- The filesystem writes of a run: one file per render invocation
(`write_still=True`), at the active render filepath. -/
def writesOf (r : RunOutput) : List String :=
  r.events.map RenderEvent.filepath

/-- Modelled from the spec: the validation order as §4.2 states it —
resolve the render collection first, then normalize the output directory,
then check its existence. Used only to compare with `execute`, whose
source normalizes the path before the collection lookup. -/
def executeSpecOrder (d : BlendData) (p : Config) (i : SceneState) : RunOutput :=
  let s3 := preState d p i
  match collectionsGet d p.renderCollection with
  | none =>
      { result := .cancelled, state := s3, events := [],
        reports := [Report.errorCollectionNotFound p.renderCollection] }
  | some renderObjs =>
      let outputPath := normalizePath p.outputPath
      if pathExists d outputPath then
        let acc := mainLoop d p renderObjs s3
        { result := .finished,
          state := { acc.state with
            hideRender := restoreAll d.sceneObjects acc.state.hideRender },
          events := acc.events,
          reports := acc.reports ++ [Report.infoComplete] }
      else
        { result := .cancelled, state := s3, events := [],
          reports := [Report.errorOutputPathNotExist outputPath] }

/-! ### Concrete fixtures used by witnesses and counterexamples -/

/-- A mesh object named `A`. -/
def objA : Obj := { id := 0, name := "A", otype := "MESH" }

/-- A mesh object named `B`. -/
def objB : Obj := { id := 1, name := "B", otype := "MESH" }

/-- A non-mesh object named `C`. -/
def objC : Obj := { id := 2, name := "C", otype := "EMPTY" }

/-- A light object, member of the lighting collection. -/
def objL : Obj := { id := 3, name := "L", otype := "LIGHT" }

/-- A camera object. -/
def objCam : Obj := { id := 4, name := "Cam", otype := "CAMERA" }

/-- Example Blender data: a render collection `Export` with `A`, `B`, `C`,
a lighting collection `Lighting` with `L`, all objects in the scene, and
an existing output directory `/out/`. -/
def exData : BlendData :=
  { collections := [("Export", [objA, objB, objC]), ("Lighting", [objL]),
      ("NoMesh", [objC]), ("EmptyLight", [])],
    objects := [objA, objB, objC, objL, objCam],
    sceneObjects := [objA, objB, objC, objL, objCam],
    existingPaths := ["/out/"] }

/-- Example configuration matching `exData`. -/
def exConfig : Config :=
  { renderCollection := "Export", lightingCollection := "Lighting",
    outputPath := "/out", useCycles := false, transparentFilm := true,
    cameraName := some "Cam" }

/-- Initial scene state: Eevee engine, opaque film, no camera, every
object's `hide_render` flag raised so runs must actively lower it. -/
def exInit : SceneState :=
  { engine := "BLENDER_EEVEE", filmTransparent := false, camera := none,
    hideRender := fun _ => true, renderFilepath := "" }

/-- Configuration whose render collection does not resolve and which
selects Cycles, exposing the pre-validation engine mutation. -/
def exConfigBadCollection : Config :=
  { exConfig with
      renderCollection := "Missing"
      outputPath := "/nowhere"
      useCycles := true }

/-- Configuration whose lighting collection does not resolve. -/
def exConfigNoLighting : Config :=
  { exConfig with lightingCollection := "Nope" }

/-- Configuration with a valid render collection but an output directory
that does not exist. -/
def exConfigBadPath : Config :=
  { exConfig with outputPath := "/nowhere" }

/-- Configuration whose render collection `NoMesh` holds no mesh object. -/
def exConfigNoMesh : Config :=
  { exConfig with renderCollection := "NoMesh" }

/-- Configuration whose lighting collection `EmptyLight` exists and is
empty. -/
def exConfigEmptyLight : Config :=
  { exConfig with lightingCollection := "EmptyLight" }

/-! ### Helper lemmas -/

/-- The visibility invariant at the moment a render is invoked: among the
scene objects, exactly the lighting objects and the render target have
their exclude-from-render flag lowered. -/
def eventInvariant (sceneObjs lightingObjs : List Obj) (e : RenderEvent) : Prop :=
  ∀ o ∈ sceneObjs, (e.flagsAtRender o = false ↔ (o ∈ lightingObjs ∨ o = e.target))

lemma loopStep_events_invariant (d : BlendData) (L : List Obj) (out : String)
    (acc : LoopAcc) (obj : Obj)
    (h : ∀ e ∈ acc.events, eventInvariant d.sceneObjects L e) :
    ∀ e ∈ (loopStep d L out acc obj).events, eventInvariant d.sceneObjects L e := by
  intro e he
  unfold loopStep at he
  by_cases hm : obj.otype = "MESH"
  · rw [if_pos hm] at he
    simp only [List.mem_append, List.mem_singleton] at he
    rcases he with he | he
    · exact h e he
    · subst he
      intro o ho
      simp only [setVisible, hideOthers]
      by_cases heq : o = obj
      · simp [heq]
      · rw [if_neg heq, if_pos ho, decide_eq_false_iff_not]
        constructor
        · intro hn
          by_cases hL : o ∈ L
          · exact Or.inl hL
          · exact absurd ⟨hL, heq⟩ hn
        · intro hor hn
          rcases hor with hL | hob
          · exact hn.1 hL
          · exact heq hob
  · rw [if_neg hm] at he
    exact h e he

lemma foldl_events_invariant (d : BlendData) (L : List Obj) (out : String) :
    ∀ (objs : List Obj) (acc : LoopAcc),
      (∀ e ∈ acc.events, eventInvariant d.sceneObjects L e) →
      ∀ e ∈ (objs.foldl (loopStep d L out) acc).events,
        eventInvariant d.sceneObjects L e := by
  intro objs
  induction objs with
  | nil => intro acc h; simpa using h
  | cons x xs ih =>
      intro acc h
      simp only [List.foldl_cons]
      exact ih _ (loopStep_events_invariant d L out acc x h)

lemma execute_of_no_collection (d : BlendData) (p : Config) (i : SceneState)
    (h : collectionsGet d p.renderCollection = none) :
    execute d p i =
      { result := .cancelled, state := preState d p i, events := [],
        reports := [Report.errorCollectionNotFound p.renderCollection] } := by
  simp only [execute, h]

lemma execute_of_bad_path (d : BlendData) (p : Config) (i : SceneState)
    (renderObjs : List Obj)
    (hrc : collectionsGet d p.renderCollection = some renderObjs)
    (hpath : pathExists d (normalizePath p.outputPath) = false) :
    execute d p i =
      { result := .cancelled, state := preState d p i, events := [],
        reports := [Report.errorOutputPathNotExist (normalizePath p.outputPath)] } := by
  simp only [execute, hrc, hpath, Bool.false_eq_true, if_false]

lemma execute_of_valid (d : BlendData) (p : Config) (i : SceneState)
    (renderObjs : List Obj)
    (hrc : collectionsGet d p.renderCollection = some renderObjs)
    (hpath : pathExists d (normalizePath p.outputPath) = true) :
    execute d p i =
      { result := .finished,
        state := { (mainLoop d p renderObjs (preState d p i)).state with
          hideRender := restoreAll d.sceneObjects
            (mainLoop d p renderObjs (preState d p i)).state.hideRender },
        events := (mainLoop d p renderObjs (preState d p i)).events,
        reports := (mainLoop d p renderObjs (preState d p i)).reports
          ++ [Report.infoComplete] } := by
  simp only [execute, hrc, hpath, if_true]

lemma preState_hideRender (d : BlendData) (p : Config) (i : SceneState) :
    (preState d p i).hideRender = i.hideRender := by
  unfold preState
  cases p.cameraName <;> rfl

lemma preState_engine (d : BlendData) (p : Config) (i : SceneState) :
    (preState d p i).engine = if p.useCycles then "CYCLES" else "BLENDER_EEVEE" := by
  unfold preState
  cases p.cameraName <;> rfl

lemma preState_filmTransparent (d : BlendData) (p : Config) (i : SceneState) :
    (preState d p i).filmTransparent = p.transparentFilm := by
  unfold preState
  cases p.cameraName <;> rfl

lemma preState_camera (d : BlendData) (p : Config) (i : SceneState) :
    (preState d p i).camera =
      (match p.cameraName with
       | some cn => objectsGet d cn
       | none => i.camera) := by
  unfold preState
  cases p.cameraName <;> rfl

lemma isSuffixOf_singleton_append (c : Char) (s : List Char) :
    List.isSuffixOf [c] (s ++ [c]) = true := by
  unfold List.isSuffixOf
  rw [List.reverse_append]
  simp [List.isPrefixOf]

lemma strEndsWith_append_slash (s : String) :
    strEndsWith (s ++ "/") "/" = true := by
  unfold strEndsWith
  rw [String.data_append]
  exact isSuffixOf_singleton_append '/' s.data

lemma normalizePath_of_endsWith (t : String)
    (h : strEndsWith t "/" = true ∨ strEndsWith t "\\" = true) :
    normalizePath t = t := by
  unfold normalizePath
  rcases h with h | h <;> simp [h]

lemma normalizePath_endsWith (s : String) :
    strEndsWith (normalizePath s) "/" = true ∨
    strEndsWith (normalizePath s) "\\" = true := by
  unfold normalizePath
  by_cases h : (strEndsWith s "/" || strEndsWith s "\\") = true
  · rw [if_pos h]
    exact Bool.or_eq_true_iff.mp h
  · rw [if_neg h]
    exact Or.inl (strEndsWith_append_slash s)

lemma execute_events_invariant (d : BlendData) (p : Config) (i : SceneState) :
    ∀ e ∈ (execute d p i).events,
      eventInvariant d.sceneObjects (lightingObjsOf d p) e := by
  intro e he
  rcases hrc : collectionsGet d p.renderCollection with _ | renderObjs
  · rw [execute_of_no_collection d p i hrc] at he
    exact absurd he (List.not_mem_nil e)
  · cases hpath : pathExists d (normalizePath p.outputPath) with
    | false =>
        rw [execute_of_bad_path d p i renderObjs hrc hpath] at he
        exact absurd he (List.not_mem_nil e)
    | true =>
        rw [execute_of_valid d p i renderObjs hrc hpath] at he
        exact foldl_events_invariant d (lightingObjsOf d p) (normalizePath p.outputPath)
          renderObjs { state := preState d p i, events := [], reports := [] }
          (fun e he => absurd he (List.not_mem_nil e)) e he

lemma foldl_loopStep_no_mesh (d : BlendData) (L : List Obj) (out : String) :
    ∀ (objs : List Obj) (acc : LoopAcc),
      (∀ o ∈ objs, ¬ o.otype = "MESH") →
      objs.foldl (loopStep d L out) acc = acc := by
  intro objs
  induction objs with
  | nil => intro acc _; rfl
  | cons x xs ih =>
      intro acc h
      rw [List.foldl_cons]
      have hx : ¬ x.otype = "MESH" := h x (List.mem_cons_self x xs)
      have hstep : loopStep d L out acc x = acc := by
        unfold loopStep
        rw [if_neg hx]
      rw [hstep]
      exact ih acc (fun o ho => h o (List.mem_cons_of_mem x ho))

/-! ### Claim theorems -/

/-- C4: when the render-collection name does not resolve, `execute` returns
`CANCELLED`, performs zero filesystem writes, and leaves every object's
exclude-from-render flag exactly as it was before the run. -/
theorem missing_collection_cancels (d : BlendData) (p : Config) (i : SceneState)
    (h : collectionsGet d p.renderCollection = none) :
    (execute d p i).result = ExecResult.cancelled ∧
    writesOf (execute d p i) = [] ∧
    ∀ o : Obj, (execute d p i).state.hideRender o = i.hideRender o := by
  rw [execute_of_no_collection d p i h]
  refine ⟨rfl, rfl, fun o => ?_⟩
  rw [preState_hideRender]

/-- Witness for C4 at a concrete scene whose configured render collection
`Missing` does not exist. -/
theorem missing_collection_cancels_witness :
    (execute exData exConfigBadCollection exInit).result = ExecResult.cancelled ∧
    (execute exData exConfigBadCollection exInit).state.hideRender objA =
      exInit.hideRender objA :=
  ⟨(missing_collection_cancels exData exConfigBadCollection exInit rfl).1,
   (missing_collection_cancels exData exConfigBadCollection exInit rfl).2.2 objA⟩

/-- C6: with a resolvable render collection but a non-existent output
directory, `execute` returns `CANCELLED` with zero filesystem writes. -/
theorem bad_path_cancels (d : BlendData) (p : Config) (i : SceneState)
    (renderObjs : List Obj)
    (hrc : collectionsGet d p.renderCollection = some renderObjs)
    (hpath : pathExists d (normalizePath p.outputPath) = false) :
    (execute d p i).result = ExecResult.cancelled ∧
    writesOf (execute d p i) = [] := by
  rw [execute_of_bad_path d p i renderObjs hrc hpath]
  exact ⟨rfl, rfl⟩

/-- Witness for C6 at a concrete scene with render collection `Export`
present and output directory `/nowhere` absent. -/
theorem bad_path_cancels_witness :
    (execute exData exConfigBadPath exInit).result = ExecResult.cancelled ∧
    writesOf (execute exData exConfigBadPath exInit) = [] :=
  bad_path_cancels exData exConfigBadPath exInit [objA, objB, objC] rfl rfl

/-- C7: the validation is observationally the spec's fail-fast order —
`execute` equals the variant that resolves the collection first, then
normalizes, then checks existence; a missing render collection is reported
as collection-not-found regardless of the output path, and when the
collection resolves, the existence check is performed on the normalized
path and reported as path-not-exist. -/
theorem validation_order (d : BlendData) (p : Config) (i : SceneState) :
    execute d p i = executeSpecOrder d p i ∧
    (collectionsGet d p.renderCollection = none →
      (execute d p i).result = ExecResult.cancelled ∧
      (execute d p i).reports = [Report.errorCollectionNotFound p.renderCollection]) ∧
    (∀ renderObjs : List Obj, collectionsGet d p.renderCollection = some renderObjs →
      pathExists d (normalizePath p.outputPath) = false →
      (execute d p i).result = ExecResult.cancelled ∧
      (execute d p i).reports = [Report.errorOutputPathNotExist (normalizePath p.outputPath)]) := by
  refine ⟨rfl, fun h => ?_, fun ro hrc hpath => ?_⟩
  · rw [execute_of_no_collection d p i h]
    exact ⟨rfl, rfl⟩
  · rw [execute_of_bad_path d p i ro hrc hpath]
    exact ⟨rfl, rfl⟩

/-- Witness for C7 at a concrete configuration where both the render
collection and the output directory are invalid: the reported failure is
collection-not-found. -/
theorem validation_order_witness :
    pathExists exData (normalizePath exConfigBadCollection.outputPath) = false ∧
    (execute exData exConfigBadCollection exInit).reports =
      [Report.errorCollectionNotFound "Missing"] :=
  ⟨rfl, ((validation_order exData exConfigBadCollection exInit).2.1 rfl).2⟩

/-- C8: the resolved file path for directory `C:\out` and object `Cube` is
`C:\out/Cube.png`; normalization appends `/` exactly when the directory
ends with neither `/` nor `\`, leaves it unchanged otherwise, and is
idempotent. -/
theorem path_normalization (s : String) :
    filepathFor "C:\\out" "Cube" = "C:\\out/Cube.png" ∧
    (strEndsWith s "/" = false ∧ strEndsWith s "\\" = false →
      normalizePath s = s ++ "/") ∧
    (strEndsWith s "/" = true ∨ strEndsWith s "\\" = true →
      normalizePath s = s) ∧
    normalizePath (normalizePath s) = normalizePath s := by
  refine ⟨by decide, fun h => ?_, normalizePath_of_endsWith s,
    normalizePath_of_endsWith (normalizePath s) (normalizePath_endsWith s)⟩
  unfold normalizePath
  rw [h.1, h.2]
  rfl

/-- Witness for C8 at `C:\out` (which ends with neither separator) and at
its normalization `C:\out/`. -/
theorem path_normalization_witness :
    normalizePath "C:\\out" = "C:\\out" ++ "/" ∧
    normalizePath (normalizePath "C:\\out") = normalizePath "C:\\out" :=
  ⟨(path_normalization "C:\\out").2.1 (by decide),
   (path_normalization "C:\\out").2.2.2⟩

/-- C1: at the moment the render is invoked for a target object, among the
scene objects exactly the lighting-collection members and the target have
their exclude-from-render flag lowered; every other scene object's flag is
raised. -/
theorem render_moment_visibility (d : BlendData) (p : Config) (i : SceneState)
    (e : RenderEvent) (he : e ∈ (execute d p i).events)
    (o : Obj) (ho : o ∈ d.sceneObjects) :
    e.flagsAtRender o = false ↔ (o ∈ lightingObjsOf d p ∨ o = e.target) :=
  execute_events_invariant d p i e he o ho

/-- Witness for C1: the first render of the example run has the lighting
object visible and the non-targets hidden. -/
theorem render_moment_visibility_witness :
    ∃ e ∈ (execute exData exConfig exInit).events,
      (e.flagsAtRender objL = false ↔
        (objL ∈ lightingObjsOf exData exConfig ∨ objL = e.target)) ∧
      (e.flagsAtRender objB = false ↔
        (objB ∈ lightingObjsOf exData exConfig ∨ objB = e.target)) := by
  have hlen : 0 < (execute exData exConfig exInit).events.length := by decide
  refine ⟨(execute exData exConfig exInit).events.get ⟨0, hlen⟩,
    List.get_mem _ 0 hlen, ?_, ?_⟩
  · exact render_moment_visibility exData exConfig exInit _
      (List.get_mem _ 0 hlen) objL (by decide)
  · exact render_moment_visibility exData exConfig exInit _
      (List.get_mem _ 0 hlen) objB (by decide)

/-- C2: a run that passes validation over a non-empty render collection
finishes and leaves every scene object's exclude-from-render flag lowered,
whatever it was before the run. -/
theorem post_run_full_visibility (d : BlendData) (p : Config) (i : SceneState)
    (renderObjs : List Obj)
    (hrc : collectionsGet d p.renderCollection = some renderObjs)
    (_hne : renderObjs ≠ [])
    (hpath : pathExists d (normalizePath p.outputPath) = true) :
    (execute d p i).result = ExecResult.finished ∧
    ∀ o ∈ d.sceneObjects, (execute d p i).state.hideRender o = false := by
  rw [execute_of_valid d p i renderObjs hrc hpath]
  refine ⟨rfl, fun o ho => ?_⟩
  show restoreAll d.sceneObjects _ o = false
  unfold restoreAll
  rw [if_pos ho]

/-- Witness for C2 at the example scene, whose objects all start hidden. -/
theorem post_run_full_visibility_witness :
    exInit.hideRender objC = true ∧
    (execute exData exConfig exInit).result = ExecResult.finished ∧
    (execute exData exConfig exInit).state.hideRender objC = false :=
  ⟨rfl,
   (post_run_full_visibility exData exConfig exInit [objA, objB, objC] rfl
     (by decide) rfl).1,
   (post_run_full_visibility exData exConfig exInit [objA, objB, objC] rfl
     (by decide) rfl).2 objC (by decide)⟩

/-- C3: over a render collection holding exactly a mesh `A`, a mesh `B`
and a non-mesh `C`, with an empty lighting set, a successful run writes
exactly the two files for `A` and `B` (in order), each at
`normalized output directory ++ name ++ ".png"`, and none for `C`. -/
theorem mesh_only_two_writes (d : BlendData) (p : Config) (i : SceneState)
    (A B C : Obj)
    (hrc : collectionsGet d p.renderCollection = some [A, B, C])
    (hA : A.otype = "MESH") (hB : B.otype = "MESH") (hC : ¬ C.otype = "MESH")
    (_hlight : lightingObjsOf d p = [])
    (hpath : pathExists d (normalizePath p.outputPath) = true) :
    (execute d p i).result = ExecResult.finished ∧
    writesOf (execute d p i) =
      [filepathFor p.outputPath A.name, filepathFor p.outputPath B.name] := by
  rw [execute_of_valid d p i [A, B, C] hrc hpath]
  refine ⟨rfl, ?_⟩
  show ((mainLoop d p [A, B, C] (preState d p i)).events).map RenderEvent.filepath = _
  unfold mainLoop
  simp only [List.foldl_cons, List.foldl_nil]
  simp only [loopStep, hA, hB, hC, if_true, if_false, if_pos, if_neg,
    List.nil_append, List.append_nil, List.map_append, List.map_cons, List.map_nil]
  rfl

/-- Witness for C3 at the example scene with the empty lighting
collection: the writes are `/out/A.png` and `/out/B.png`. -/
theorem mesh_only_two_writes_witness :
    (execute exData exConfigEmptyLight exInit).result = ExecResult.finished ∧
    writesOf (execute exData exConfigEmptyLight exInit) =
      ["/out/A.png", "/out/B.png"] := by
  have h := mesh_only_two_writes exData exConfigEmptyLight exInit objA objB objC
    rfl rfl rfl (by decide) rfl rfl
  exact ⟨h.1, h.2⟩

/-- C9: a missing lighting collection does not make the run fail: the run
finishes, the lighting set degrades to empty, and at each render exactly
the current target is visible among the scene objects. -/
theorem missing_lighting_degrades (d : BlendData) (p : Config) (i : SceneState)
    (renderObjs : List Obj)
    (hl : collectionsGet d p.lightingCollection = none)
    (hrc : collectionsGet d p.renderCollection = some renderObjs)
    (hpath : pathExists d (normalizePath p.outputPath) = true) :
    (execute d p i).result = ExecResult.finished ∧
    lightingObjsOf d p = [] ∧
    ∀ e ∈ (execute d p i).events, ∀ o ∈ d.sceneObjects,
      (e.flagsAtRender o = false ↔ o = e.target) := by
  have hL : lightingObjsOf d p = [] := by
    unfold lightingObjsOf
    rw [hl]
    rfl
  refine ⟨?_, hL, fun e he o ho => ?_⟩
  · rw [execute_of_valid d p i renderObjs hrc hpath]
  · have h := execute_events_invariant d p i e he o ho
    rw [hL] at h
    simpa using h

/-- Witness for C9: with lighting collection `Nope` absent, the run
finishes and at the first render the light object `L` is hidden. -/
theorem missing_lighting_degrades_witness :
    (execute exData exConfigNoLighting exInit).result = ExecResult.finished ∧
    (∃ e ∈ (execute exData exConfigNoLighting exInit).events,
      (e.flagsAtRender objL = false ↔ objL = e.target)) := by
  have h := missing_lighting_degrades exData exConfigNoLighting exInit
    [objA, objB, objC] rfl rfl rfl
  have hlen : 0 < (execute exData exConfigNoLighting exInit).events.length := by decide
  exact ⟨h.1, ⟨(execute exData exConfigNoLighting exInit).events.get ⟨0, hlen⟩,
    List.get_mem _ 0 hlen, h.2.2 _ (List.get_mem _ 0 hlen) objL (by decide)⟩⟩

/-- C10: a validated run over a render collection with no mesh objects
performs zero renders and zero writes, still lowers every scene object's
exclude-from-render flag, and finishes. -/
theorem no_mesh_finishes_no_writes (d : BlendData) (p : Config) (i : SceneState)
    (renderObjs : List Obj)
    (hrc : collectionsGet d p.renderCollection = some renderObjs)
    (hpath : pathExists d (normalizePath p.outputPath) = true)
    (hmesh : ∀ o ∈ renderObjs, ¬ o.otype = "MESH") :
    (execute d p i).result = ExecResult.finished ∧
    writesOf (execute d p i) = [] ∧
    ∀ o ∈ d.sceneObjects, (execute d p i).state.hideRender o = false := by
  rw [execute_of_valid d p i renderObjs hrc hpath]
  have hml : mainLoop d p renderObjs (preState d p i) =
      { state := preState d p i, events := [], reports := [] } :=
    foldl_loopStep_no_mesh d (lightingObjsOf d p) (normalizePath p.outputPath)
      renderObjs _ hmesh
  rw [hml]
  refine ⟨rfl, rfl, fun o ho => ?_⟩
  show restoreAll d.sceneObjects _ o = false
  unfold restoreAll
  rw [if_pos ho]

/-- Witness for C10 at the render collection `NoMesh`, which holds only
the non-mesh `C`. -/
theorem no_mesh_finishes_no_writes_witness :
    (execute exData exConfigNoMesh exInit).result = ExecResult.finished ∧
    writesOf (execute exData exConfigNoMesh exInit) = [] ∧
    (execute exData exConfigNoMesh exInit).state.hideRender objC = false := by
  have h := no_mesh_finishes_no_writes exData exConfigNoMesh exInit [objC]
    rfl rfl (by decide)
  exact ⟨h.1, h.2.1, h.2.2 objC (by decide)⟩

/-- C5 counterexample: a run cancelled by validation (render collection
`Missing` absent) has nevertheless mutated the scene state — the render
engine was switched to Cycles, the film-transparency flag raised and the
active camera assigned before the validation ran. -/
theorem validation_mutation_counterexample :
    (execute exData exConfigBadCollection exInit).result = ExecResult.cancelled ∧
    exInit.engine = "BLENDER_EEVEE" ∧
    (execute exData exConfigBadCollection exInit).state.engine = "CYCLES" ∧
    (execute exData exConfigBadCollection exInit).state.engine ≠ exInit.engine ∧
    exInit.filmTransparent = false ∧
    (execute exData exConfigBadCollection exInit).state.filmTransparent = true ∧
    exInit.camera = none ∧
    (execute exData exConfigBadCollection exInit).state.camera = some objCam := by
  refine ⟨rfl, rfl, rfl, ?_, rfl, rfl, rfl, rfl⟩
  decide

/-- C5 amended: both validation failures abort before any filesystem write
and before any exclude-from-render mutation, but the render engine, the
film-transparency flag and (when a camera is configured) the active camera
are set before validation, so they are mutated even on a failed run. -/
theorem validation_failure_partial_mutation (d : BlendData) (p : Config)
    (i : SceneState)
    (h : collectionsGet d p.renderCollection = none ∨
         pathExists d (normalizePath p.outputPath) = false) :
    (execute d p i).result = ExecResult.cancelled ∧
    writesOf (execute d p i) = [] ∧
    (∀ o : Obj, (execute d p i).state.hideRender o = i.hideRender o) ∧
    (execute d p i).state.engine =
      (if p.useCycles then "CYCLES" else "BLENDER_EEVEE") ∧
    (execute d p i).state.filmTransparent = p.transparentFilm ∧
    (execute d p i).state.camera =
      (match p.cameraName with
       | some cn => objectsGet d cn
       | none => i.camera) := by
  have hstate : (execute d p i).state = preState d p i ∧
      (execute d p i).result = ExecResult.cancelled ∧
      writesOf (execute d p i) = [] := by
    rcases h with h | h
    · rw [execute_of_no_collection d p i h]
      exact ⟨rfl, rfl, rfl⟩
    · rcases hrc : collectionsGet d p.renderCollection with _ | ro
      · rw [execute_of_no_collection d p i hrc]
        exact ⟨rfl, rfl, rfl⟩
      · rw [execute_of_bad_path d p i ro hrc h]
        exact ⟨rfl, rfl, rfl⟩
  obtain ⟨hs, hr, hw⟩ := hstate
  refine ⟨hr, hw, fun o => ?_, ?_, ?_, ?_⟩
  · rw [hs, preState_hideRender]
  · rw [hs, preState_engine]
  · rw [hs, preState_filmTransparent]
  · rw [hs, preState_camera]

/-- Witness for the amended C5 at the concrete cancelled run. -/
theorem validation_failure_partial_mutation_witness :
    (execute exData exConfigBadCollection exInit).result = ExecResult.cancelled ∧
    writesOf (execute exData exConfigBadCollection exInit) = [] ∧
    (execute exData exConfigBadCollection exInit).state.engine =
      (if exConfigBadCollection.useCycles then "CYCLES" else "BLENDER_EEVEE") :=
  ⟨(validation_failure_partial_mutation exData exConfigBadCollection exInit
      (Or.inl rfl)).1,
   (validation_failure_partial_mutation exData exConfigBadCollection exInit
      (Or.inl rfl)).2.1,
   (validation_failure_partial_mutation exData exConfigBadCollection exInit
      (Or.inl rfl)).2.2.2.1⟩
